import Mathlib

/-!
Verification of the GOAP demo programs (demo.py, demo_advanced.py, demo_bge.py)
against their natural-language specification.

The three demo files are shallowly embedded below.  World states are
association lists from string keys to a tagged value domain, mirroring the
Python dictionaries used by the demos.  The declaration-level sentinels
(Ellipsis for "ANY" effects, expose/Reference for forwarded preconditions)
become constructors of the value type.  Parts of the goap library itself
(effect commitment, the default Goal.get_relevance) are not in the repository;
where needed they are modelled from the specification text and marked as such.
-/

/-- The tagged symbolic value domain of the demos: booleans, strings,
Python None, the `...` (Ellipsis) sentinel used for ANY effects, and the
`expose(key)` / `Reference(key)` forwarder used for symbolic preconditions. -/
inductive GValue where
  | vbool (b : Bool)
  | vstr (s : String)
  | vnull
  | any
  | ref (k : String)
  deriving DecidableEq, Repr

/-- A world state / goal state: a Python dict from string keys to values. -/
abbrev GState := List (String × GValue)

/-- Dictionary lookup, `state[k]`. -/
def lookupState (s : GState) (k : String) : Option GValue :=
  match s with
  | [] => none
  | (k', v) :: rest => if k' = k then some v else lookupState rest k

/-- Dictionary write, `state[k] = v`: updates an existing key in place,
appends a fresh key at the end (Python dict semantics). -/
def setState (s : GState) (k : String) (v : GValue) : GState :=
  match s with
  | [] => [(k, v)]
  | (k', v') :: rest =>
      if k' = k then (k', v) :: rest else (k', v') :: setState rest k v

/-- A goal state is satisfied by a world state when every demanded
(key, value) pair holds there. -/
def satisfies (goal : GState) (w : GState) : Bool :=
  goal.all (fun kv => lookupState w kv.1 == some kv.2)

/-- The static declaration of an action: `preconditions`, `effects`,
scalar `cost` (default 1.0) and `apply_effects_on_exit` (default true). -/
structure ActionDecl where
  preconditions : GState := []
  effects : GState := []
  cost : ℚ := 1
  apply_effects_on_exit : Bool := true
  deriving DecidableEq, Repr

/-- Status values returned by `get_status` (ActionStatus / EvaluationState). -/
inductive ActionStatus where
  | running
  | success
  | failure
  deriving DecidableEq, Repr

namespace demo

/-- demo.py: `class GoTo(Action)` with `effects = {"at_location": ...}`
and no declared preconditions. -/
def GoTo : ActionDecl :=
  { effects := [("at_location", GValue.any)] }

/-- demo.py: `class GetAxe(Action)` with `effects = {"has_axe": True}` and
`preconditions = {"at_location": "axe"}`. -/
def GetAxe : ActionDecl :=
  { effects := [("has_axe", GValue.vbool true)],
    preconditions := [("at_location", GValue.vstr "axe")] }

/-- demo.py: `class CutTrees(Action)` with `effects = {"has_wood": True}` and
`preconditions = {"at_location": "forest", "has_axe": True}`. -/
def CutTrees : ActionDecl :=
  { effects := [("has_wood", GValue.vbool true)],
    preconditions :=
      [("at_location", GValue.vstr "forest"), ("has_axe", GValue.vbool true)] }

/-- demo.py: `class CutTreesGoal(Goal)` with `state = {"has_wood": True}`. -/
def CutTreesGoal_state : GState := [("has_wood", GValue.vbool true)]

/-- demo.py: `world_state = dict(at_location=None, has_axe=False, has_wood=False)`. -/
def world_state : GState :=
  [("at_location", GValue.vnull),
   ("has_axe", GValue.vbool false),
   ("has_wood", GValue.vbool false)]

end demo

/-- Modelled from the spec: effect commitment (goap library code, not under
src/).  "For each effect key k of the action: if the declared effect value is
concrete, write it to the WorldState.  If it is ANY, write the value bound in
the snapshot for k." -/
def applyEffects (eff : GState) (snapshot : GState) (w : GState) : GState :=
  eff.foldl
    (fun w kv =>
      match kv.2 with
      | GValue.any =>
          match lookupState snapshot kv.1 with
          | some vb => setState w kv.1 vb
          | none => w
      | v => setState w kv.1 v)
    w

/-- A plan, for the purpose of soundness checking: the ordered list of steps,
each an action paired with its resolved goal-state snapshot. -/
def runPlanEffects (plan : List (ActionDecl × GState)) (w : GState) : GState :=
  plan.foldl (fun w step => applyEffects step.1.effects step.2 w) w

namespace demo

/-- The expected S1 plan `GoTo[axe] → GetAxe → GoTo[forest] → CutTrees`,
with each ANY effect bound in its step's snapshot as the claim states. -/
def s1_plan : List (ActionDecl × GState) :=
  [(GoTo, [("at_location", GValue.vstr "axe")]),
   (GetAxe, []),
   (GoTo, [("at_location", GValue.vstr "forest")]),
   (CutTrees, [])]

/-- The final state the spec expects after executing the S1 plan. -/
def s1_final : GState :=
  [("at_location", GValue.vstr "forest"),
   ("has_axe", GValue.vbool true),
   ("has_wood", GValue.vbool true)]

end demo

namespace demo

/-- demo.py, `CutTrees.__init__`: `self._start_time = None`.  The mutable
action-local state of a CutTrees instance is just its recorded start time. -/
structure CutTreesInstance where
  _start_time : Option ℚ
  deriving DecidableEq, Repr

/-- A freshly constructed `CutTrees()` instance. -/
def CutTreesInstance.init : CutTreesInstance := ⟨none⟩

/-- demo.py, `CutTrees.on_enter`: `self._start_time = time()`, with the
current clock reading `now` passed explicitly. -/
def CutTreesInstance.on_enter (_c : CutTreesInstance) (now : ℚ) : CutTreesInstance :=
  ⟨some now⟩

/-- demo.py, `CutTrees.get_status`: `elapsed = time() - self._start_time;
if elapsed < 2: return running; return success`.  When `_start_time` is still
`None` the subtraction raises a TypeError, modelled as `none`. -/
def CutTreesInstance.get_status (c : CutTreesInstance) (now : ℚ) : Option ActionStatus :=
  match c._start_time with
  | none => none
  | some t =>
      let elapsed := now - t
      if elapsed < 2 then some ActionStatus.running else some ActionStatus.success

end demo

namespace demo_advanced

/-- demo_advanced.py: `class GoTo(ActionBase)` with
`effects = {'at_location': ...}` and
`preconditions = {'seen_by_blackbird': expose('at_location')}`. -/
def GoTo : ActionDecl :=
  { effects := [("at_location", GValue.any)],
    preconditions := [("seen_by_blackbird", GValue.ref "at_location")] }

/-- demo_advanced.py: `class NosyBlackbird(ActionBase)` with
`effects = {'seen_by_blackbird': ...}`. -/
def NosyBlackbird : ActionDecl :=
  { effects := [("seen_by_blackbird", GValue.any)] }

/-- demo_advanced.py: `class GetAxe(ActionBase)`, same declaration as demo.py. -/
def GetAxe : ActionDecl :=
  { effects := [("has_axe", GValue.vbool true)],
    preconditions := [("at_location", GValue.vstr "axe")] }

/-- demo_advanced.py: `class CutTrees(ActionBase)`, same declaration as demo.py. -/
def CutTrees : ActionDecl :=
  { effects := [("has_wood", GValue.vbool true)],
    preconditions :=
      [("at_location", GValue.vstr "forest"), ("has_axe", GValue.vbool true)] }

/-- demo_advanced.py, `CutTrees.__init__`: `self._start_time = None`. -/
structure CutTreesInstance where
  _start_time : Option ℚ
  deriving DecidableEq, Repr

/-- A freshly constructed `CutTrees()` instance (demo_advanced.py). -/
def CutTreesInstance.init : CutTreesInstance := ⟨none⟩

/-- demo_advanced.py, `CutTrees.on_enter`: `self._start_time = time()`. -/
def CutTreesInstance.on_enter (_c : CutTreesInstance) (now : ℚ) : CutTreesInstance :=
  ⟨some now⟩

/-- demo_advanced.py, `CutTrees.get_status`: identical logic to demo.py,
returning EvaluationState.running / EvaluationState.success. -/
def CutTreesInstance.get_status (c : CutTreesInstance) (now : ℚ) : Option ActionStatus :=
  match c._start_time with
  | none => none
  | some t =>
      let elapsed := now - t
      if elapsed < 2 then some ActionStatus.running else some ActionStatus.success

end demo_advanced

namespace demo_bge

/-- A game target as read by demo_bge.py: the `invalid` flag of a
KX_GameObject and its `"health"` game property. -/
structure Target where
  invalid : Bool
  health : Int
  deriving DecidableEq, Repr

/-- The slice of the demo_bge.py world state dictionary read by the goals and
status callbacks under verification: `target`, `weapon_is_loaded`, `has_ammo`. -/
structure WorldState where
  target : Option Target
  weapon_is_loaded : Bool
  has_ammo : Bool
  deriving DecidableEq, Repr

/-- demo_bge.py: `class ChaseTarget(Action)` with
`apply_effects_on_exit = False` and `effects = {"in_weapons_range": True}`. -/
def ChaseTarget : ActionDecl :=
  { apply_effects_on_exit := false,
    effects := [("in_weapons_range", GValue.vbool true)] }

/-- demo_bge.py, `ChaseTarget.check_procedural_precondition`:
`return world_state["target"] is not None`.  The `goal_state` and
`is_planning` arguments are accepted and ignored, as in the source. -/
def ChaseTarget.check_procedural_precondition (world_state : WorldState)
    (_goal_state : GState) (_is_planning : Bool) : Bool :=
  world_state.target.isSome

/-- demo_bge.py: `class Attack(Action)` with `apply_effects_on_exit = False`,
`effects = {"target_is_dead": True}` and
`preconditions = {"weapon_is_loaded": True, "in_weapons_range": True}`. -/
def Attack : ActionDecl :=
  { apply_effects_on_exit := false,
    effects := [("target_is_dead", GValue.vbool true)],
    preconditions :=
      [("weapon_is_loaded", GValue.vbool true),
       ("in_weapons_range", GValue.vbool true)] }

/-- demo_bge.py, `Attack.get_status`: failure when the weapon is not loaded
or there is no target; success when the target is invalid or its health is
below 0; otherwise running. -/
def Attack.get_status (world_state : WorldState) (_goal_state : GState) :
    ActionStatus :=
  if !world_state.weapon_is_loaded then ActionStatus.failure
  else
    match world_state.target with
    | none => ActionStatus.failure
    | some target =>
        if target.invalid || target.health < 0 then ActionStatus.success
        else ActionStatus.running

/-- demo_bge.py: `class ReloadWeapon(Action)` with
`effects = {"weapon_is_loaded": True}` and `preconditions = {"has_ammo": True}`. -/
def ReloadWeapon : ActionDecl :=
  { effects := [("weapon_is_loaded", GValue.vbool true)],
    preconditions := [("has_ammo", GValue.vbool true)] }

/-- demo_bge.py: `KillEnemyGoal.state = {"target_is_dead": True}`. -/
def KillEnemyGoal_state : GState := [("target_is_dead", GValue.vbool true)]

/-- demo_bge.py, `KillEnemyGoal.get_relevance`: 0.7 when
`world_state["target"] is not None`, else 0.0. -/
def KillEnemyGoal.get_relevance (world_state : WorldState) : ℚ :=
  if world_state.target.isSome then 0.7 else 0.0

/-- demo_bge.py: `ReloadWeaponGoal.priority = 0.45`. -/
def ReloadWeaponGoal.priority : ℚ := 0.45

/-- demo_bge.py: `ReloadWeaponGoal.state = {"weapon_is_loaded": True}`. -/
def ReloadWeaponGoal_state : GState := [("weapon_is_loaded", GValue.vbool true)]

/-- Modelled from the spec: the default `Goal.get_relevance` (goap library
code, not under src/) "default returns `priority`"; ReloadWeaponGoal does not
override it. -/
def ReloadWeaponGoal.get_relevance (_world_state : WorldState) : ℚ :=
  ReloadWeaponGoal.priority

/-- The S4 world of the spec: `target=null, weapon_is_loaded=false,
has_ammo=true`. -/
def s4_world : WorldState :=
  { target := none, weapon_is_loaded := false, has_ammo := true }

/-- Modelled from the spec: the director's goal-scoring step (goap library
code, not under src/) — "Score each goal via get_relevance(world); drop
non-positive."  The applicable goals of demo_bge.py in a given world, by name. -/
def applicable_goals (w : WorldState) : List String :=
  (([("KillEnemyGoal", KillEnemyGoal.get_relevance w),
     ("ReloadWeaponGoal", ReloadWeaponGoal.get_relevance w)]).filter
    (fun g => 0 < g.2)).map Prod.fst

end demo_bge

namespace demo_bge

/-- Model of the external KX_GameObject property interface consumed by
GameObjDict (the game engine object is outside the repository): an ordered
property table supporting item read, item write, item delete, and
`getPropertyNames()`.  Property values are left abstract in `α`. -/
structure KX_GameObject (α : Type) where
  props : List (String × α)
  deriving DecidableEq, Repr

/-- Lookup of the first matching property in a property table. -/
def propsGet {α : Type} (props : List (String × α)) (name : String) :
    Option α :=
  match props with
  | [] => none
  | (k, v) :: rest => if k = name then some v else propsGet rest name

/-- Write into a property table: update an existing property in place,
append a fresh one at the end. -/
def propsSet {α : Type} (props : List (String × α)) (name : String)
    (value : α) : List (String × α) :=
  match props with
  | [] => [(name, value)]
  | (k, v) :: rest =>
      if k = name then (k, value) :: rest
      else (k, v) :: propsSet rest name value

/-- Reading `obj[name]` on the game object. -/
def KX_GameObject.getItem {α : Type} (o : KX_GameObject α) (name : String) :
    Option α :=
  propsGet o.props name

/-- Writing `obj[name] = value` on the game object. -/
def KX_GameObject.setItem {α : Type} (o : KX_GameObject α) (name : String)
    (value : α) : KX_GameObject α :=
  ⟨propsSet o.props name value⟩

/-- Deleting `del obj[name]` on the game object: remove the property. -/
def KX_GameObject.delItem {α : Type} (o : KX_GameObject α) (name : String) :
    KX_GameObject α :=
  ⟨o.props.filter (fun kv => kv.1 ≠ name)⟩

/-- The call `obj.getPropertyNames()`. -/
def KX_GameObject.getPropertyNames {α : Type} (o : KX_GameObject α) :
    List String :=
  o.props.map Prod.fst

/-- demo_bge.py: `class GameObjDict(MutableMapping)` — `__init__` stores the
wrapped game object in `self._obj`. -/
structure GameObjDict (α : Type) where
  _obj : KX_GameObject α
  deriving DecidableEq, Repr

/-- demo_bge.py, `GameObjDict.__getitem__`: `return self._obj[name]`. -/
def GameObjDict.getitem {α : Type} (d : GameObjDict α) (name : String) :
    Option α :=
  d._obj.getItem name

/-- demo_bge.py, `GameObjDict.__setitem__`: `self._obj[name] = value`. -/
def GameObjDict.setitem {α : Type} (d : GameObjDict α) (name : String)
    (value : α) : GameObjDict α :=
  ⟨d._obj.setItem name value⟩

/-- demo_bge.py, `GameObjDict.__delitem__`: `del self._obj[name]`. -/
def GameObjDict.delitem {α : Type} (d : GameObjDict α) (name : String) :
    GameObjDict α :=
  ⟨d._obj.delItem name⟩

/-- demo_bge.py, `GameObjDict.__iter__`:
`(k for k in self._obj.getPropertyNames())`. -/
def GameObjDict.iter {α : Type} (d : GameObjDict α) : List String :=
  d._obj.getPropertyNames

/-- demo_bge.py, `GameObjDict.__len__`: `len(self._obj.getPropertyNames())`. -/
def GameObjDict.len {α : Type} (d : GameObjDict α) : Nat :=
  d._obj.getPropertyNames.length

end demo_bge

/-- C1: Applying, in forward plan order, the declared effects of
GoTo (ANY bound to "axe"), GetAxe, GoTo (ANY bound to "forest") and CutTrees
to the initial world state of demo.py yields exactly
`{at_location: "forest", has_axe: true, has_wood: true}`, and that state
satisfies the goal state `{has_wood: true}`. -/
theorem c1_s1_plan_soundness :
    runPlanEffects demo.s1_plan demo.world_state = demo.s1_final ∧
    satisfies demo.CutTreesGoal_state
      (runPlanEffects demo.s1_plan demo.world_state) = true :=
  ⟨rfl, rfl⟩

/-- C2: demo.py declares exactly the S1 static model: GoTo has effects
`{at_location: ANY}` and no preconditions; GetAxe has preconditions
`{at_location: "axe"}` and effects `{has_axe: true}`; CutTrees has
preconditions `{at_location: "forest", has_axe: true}` and effects
`{has_wood: true}`; CutTreesGoal's state is `{has_wood: true}`; and the
initial world state is `{at_location: null, has_axe: false, has_wood: false}`. -/
theorem c2_s1_static_model :
    demo.GoTo.effects = [("at_location", GValue.any)] ∧
    demo.GoTo.preconditions = [] ∧
    demo.GetAxe.preconditions = [("at_location", GValue.vstr "axe")] ∧
    demo.GetAxe.effects = [("has_axe", GValue.vbool true)] ∧
    demo.CutTrees.preconditions =
      [("at_location", GValue.vstr "forest"), ("has_axe", GValue.vbool true)] ∧
    demo.CutTrees.effects = [("has_wood", GValue.vbool true)] ∧
    demo.CutTreesGoal_state = [("has_wood", GValue.vbool true)] ∧
    demo.world_state =
      [("at_location", GValue.vnull), ("has_axe", GValue.vbool false),
       ("has_wood", GValue.vbool false)] :=
  ⟨rfl, rfl, rfl, rfl, rfl, rfl, rfl, rfl⟩

/-- C3: in demo_advanced.py, NosyBlackbird declares the symbolic effect
`{seen_by_blackbird: ANY}`, and GoTo declares both the effect
`{at_location: ANY}` and the symbolic precondition
`{seen_by_blackbird: Reference("at_location")}` (written `expose`). -/
theorem c3_s2_symbolic_declarations :
    demo_advanced.NosyBlackbird.effects = [("seen_by_blackbird", GValue.any)] ∧
    demo_advanced.GoTo.effects = [("at_location", GValue.any)] ∧
    demo_advanced.GoTo.preconditions =
      [("seen_by_blackbird", GValue.ref "at_location")] :=
  ⟨rfl, rfl, rfl⟩

/-- C4: KillEnemyGoal.get_relevance returns 0 on every world whose target is
null and 0.7 on every world whose target is non-null; ReloadWeaponGoal
declares priority 0.45 and goal state `{weapon_is_loaded: true}`; and in the
S4 world (target = null) ReloadWeaponGoal is the only applicable goal. -/
theorem c4_relevance_gating :
    (∀ w : demo_bge.WorldState, w.target = none →
        demo_bge.KillEnemyGoal.get_relevance w = 0) ∧
    (∀ w : demo_bge.WorldState, w.target ≠ none →
        demo_bge.KillEnemyGoal.get_relevance w = 0.7) ∧
    demo_bge.ReloadWeaponGoal.priority = 0.45 ∧
    demo_bge.ReloadWeaponGoal_state = [("weapon_is_loaded", GValue.vbool true)] ∧
    demo_bge.s4_world.target = none ∧
    demo_bge.applicable_goals demo_bge.s4_world = ["ReloadWeaponGoal"] := by
  refine ⟨?_, ?_, rfl, rfl, rfl, ?_⟩
  · intro w h
    simp [demo_bge.KillEnemyGoal.get_relevance, h]
    norm_num
  · intro w h
    rw [Option.ne_none_iff_isSome] at h
    simp [demo_bge.KillEnemyGoal.get_relevance, h]
  · norm_num [demo_bge.applicable_goals, demo_bge.s4_world,
      demo_bge.KillEnemyGoal.get_relevance, demo_bge.ReloadWeaponGoal.get_relevance,
      demo_bge.ReloadWeaponGoal.priority, List.filter]

/-- C5: in demo_bge.py, ChaseTarget declares `apply_effects_on_exit = false`
with effects `{in_weapons_range: true}`, and Attack's preconditions contain
`in_weapons_range: true`. -/
theorem c5_immediate_effect_declarations :
    demo_bge.ChaseTarget.apply_effects_on_exit = false ∧
    demo_bge.ChaseTarget.effects = [("in_weapons_range", GValue.vbool true)] ∧
    ("in_weapons_range", GValue.vbool true) ∈ demo_bge.Attack.preconditions :=
  ⟨rfl, rfl, by decide⟩

/-- C6: Attack.get_status returns failure exactly when the weapon is not
loaded or the target is null; when the weapon is loaded and a target exists,
it returns success exactly when the target is invalid or its health is
strictly below 0, and running otherwise. -/
theorem c6_attack_get_status_cases :
    (∀ (w : demo_bge.WorldState) (gs : GState),
        demo_bge.Attack.get_status w gs = ActionStatus.failure ↔
          (w.weapon_is_loaded = false ∨ w.target = none)) ∧
    (∀ (w : demo_bge.WorldState) (gs : GState) (t : demo_bge.Target),
        w.weapon_is_loaded = true → w.target = some t →
        ((demo_bge.Attack.get_status w gs = ActionStatus.success ↔
            (t.invalid = true ∨ t.health < 0)) ∧
         (demo_bge.Attack.get_status w gs = ActionStatus.running ↔
            ¬(t.invalid = true ∨ t.health < 0)))) := by
  constructor
  · rintro ⟨tgt, loaded, ammo⟩ gs
    cases loaded <;> cases tgt <;>
      simp [demo_bge.Attack.get_status] <;> split_ifs <;> simp_all
  · rintro ⟨tgt, loaded, ammo⟩ gs t hl ht
    simp only at hl ht
    subst hl; subst ht
    by_cases hi : t.invalid = true ∨ t.health < 0
    · simp [demo_bge.Attack.get_status, hi]
    · simp [demo_bge.Attack.get_status, hi]

/-- C7: CutTrees.get_status (in demo.py and demo_advanced.py alike) is a
two-second durative poll: after on_enter recorded the start time, it returns
running while strictly less than 2 seconds have elapsed and success once at
least 2 seconds have elapsed, and it never returns failure. -/
theorem c7_cuttrees_two_second_duration :
    (∀ (c : demo.CutTreesInstance) (start now : ℚ),
        (now - start < 2 →
          (c.on_enter start).get_status now = some ActionStatus.running) ∧
        (2 ≤ now - start →
          (c.on_enter start).get_status now = some ActionStatus.success) ∧
        (c.on_enter start).get_status now ≠ some ActionStatus.failure) ∧
    (∀ (c : demo_advanced.CutTreesInstance) (start now : ℚ),
        (now - start < 2 →
          (c.on_enter start).get_status now = some ActionStatus.running) ∧
        (2 ≤ now - start →
          (c.on_enter start).get_status now = some ActionStatus.success) ∧
        (c.on_enter start).get_status now ≠ some ActionStatus.failure) := by
  constructor
  · intro c start now
    refine ⟨fun h => ?_, fun h => ?_, ?_⟩
    · simp [demo.CutTreesInstance.on_enter, demo.CutTreesInstance.get_status, h]
    · simp [demo.CutTreesInstance.on_enter, demo.CutTreesInstance.get_status,
        not_lt.mpr h]
    · simp only [demo.CutTreesInstance.on_enter, demo.CutTreesInstance.get_status]
      split <;> simp
  · intro c start now
    refine ⟨fun h => ?_, fun h => ?_, ?_⟩
    · simp [demo_advanced.CutTreesInstance.on_enter,
        demo_advanced.CutTreesInstance.get_status, h]
    · simp [demo_advanced.CutTreesInstance.on_enter,
        demo_advanced.CutTreesInstance.get_status, not_lt.mpr h]
    · simp only [demo_advanced.CutTreesInstance.on_enter,
        demo_advanced.CutTreesInstance.get_status]
      split <;> simp

/-- C8: ChaseTarget.check_procedural_precondition is true exactly when the
world state's target is non-null, and its result depends only on the world
state: any two calls that agree on the world state agree on the result,
whatever the goal_state and is_planning arguments. -/
theorem c8_chase_procedural_filter :
    (∀ (w : demo_bge.WorldState) (gs : GState) (b : Bool),
        demo_bge.ChaseTarget.check_procedural_precondition w gs b = true ↔
          w.target ≠ none) ∧
    (∀ (w : demo_bge.WorldState) (gs1 gs2 : GState) (b1 b2 : Bool),
        demo_bge.ChaseTarget.check_procedural_precondition w gs1 b1 =
          demo_bge.ChaseTarget.check_procedural_precondition w gs2 b2) := by
  constructor
  · intro w gs b
    simp [demo_bge.ChaseTarget.check_procedural_precondition,
      Option.isSome_iff_ne_none]
  · intro w gs1 gs2 b1 b2
    rfl

/-- C9: a CutTrees instance's get_status is only defined after on_enter:
construction leaves the start time None (so a fresh instance's get_status
faults, modelled as none), on_enter records the clock reading, and after any
on_enter the get_status call is total. -/
theorem c9_get_status_needs_on_enter :
    (demo.CutTreesInstance.init._start_time = none ∧
     (∀ (c : demo.CutTreesInstance) (now : ℚ),
        (c.on_enter now)._start_time = some now) ∧
     (∀ now : ℚ, demo.CutTreesInstance.init.get_status now = none) ∧
     (∀ (c : demo.CutTreesInstance) (start now : ℚ),
        (c.on_enter start).get_status now ≠ none)) ∧
    (demo_advanced.CutTreesInstance.init._start_time = none ∧
     (∀ (c : demo_advanced.CutTreesInstance) (now : ℚ),
        (c.on_enter now)._start_time = some now) ∧
     (∀ now : ℚ, demo_advanced.CutTreesInstance.init.get_status now = none) ∧
     (∀ (c : demo_advanced.CutTreesInstance) (start now : ℚ),
        (c.on_enter start).get_status now ≠ none)) := by
  refine ⟨⟨rfl, fun c now => rfl, fun now => rfl, fun c start now => ?_⟩,
    ⟨rfl, fun c now => rfl, fun now => rfl, fun c start now => ?_⟩⟩
  · simp only [demo.CutTreesInstance.on_enter, demo.CutTreesInstance.get_status]
    split <;> simp
  · simp only [demo_advanced.CutTreesInstance.on_enter,
      demo_advanced.CutTreesInstance.get_status]
    split <;> simp

theorem propsGet_propsSet_self {α : Type} (p : List (String × α)) (k : String)
    (v : α) : demo_bge.propsGet (demo_bge.propsSet p k v) k = some v := by
  induction p with
  | nil => simp [demo_bge.propsSet, demo_bge.propsGet]
  | cons hd tl ih =>
      obtain ⟨k0, v0⟩ := hd
      by_cases h : k0 = k
      · subst h
        simp [demo_bge.propsSet, demo_bge.propsGet]
      · simp [demo_bge.propsSet, demo_bge.propsGet, h, ih]

theorem propsGet_propsSet_other {α : Type} (p : List (String × α))
    (k k' : String) (v : α) (h : k' ≠ k) :
    demo_bge.propsGet (demo_bge.propsSet p k v) k' = demo_bge.propsGet p k' := by
  induction p with
  | nil => simp [demo_bge.propsSet, demo_bge.propsGet, Ne.symm h]
  | cons hd tl ih =>
      obtain ⟨k0, v0⟩ := hd
      by_cases h0 : k0 = k
      · subst h0
        simp [demo_bge.propsSet, demo_bge.propsGet, Ne.symm h]
      · simp [demo_bge.propsSet, demo_bge.propsGet, h0, ih]

theorem propsGet_del_self {α : Type} (p : List (String × α)) (k : String) :
    demo_bge.propsGet (p.filter (fun kv => kv.1 ≠ k)) k = none := by
  induction p with
  | nil => rfl
  | cons hd tl ih =>
      obtain ⟨k0, v0⟩ := hd
      simp only [ne_eq, decide_not] at ih
      by_cases h : k0 = k
      · subst h
        simpa [List.filter_cons] using ih
      · simp [List.filter_cons, h, demo_bge.propsGet, ih]

theorem propsGet_del_other {α : Type} (p : List (String × α)) (k k' : String)
    (h : k' ≠ k) :
    demo_bge.propsGet (p.filter (fun kv => kv.1 ≠ k)) k' =
      demo_bge.propsGet p k' := by
  induction p with
  | nil => rfl
  | cons hd tl ih =>
      obtain ⟨k0, v0⟩ := hd
      simp only [ne_eq, decide_not] at ih
      by_cases h0 : k0 = k
      · subst h0
        simp [List.filter_cons, demo_bge.propsGet, Ne.symm h, ih]
      · simp [List.filter_cons, h0, demo_bge.propsGet, ih]

/-- C10: GameObjDict is a faithful mapping view of the wrapped game object:
writing a key then reading it returns the written value; a write or delete at
one key leaves every other key's value unchanged, and a delete removes its
key; and read, write, delete, iteration and length all delegate to the
wrapped object's property table. -/
theorem c10_gameobjdict_faithful :
    (∀ (α : Type) (o : demo_bge.KX_GameObject α) (k : String) (v : α),
        (demo_bge.GameObjDict.setitem ⟨o⟩ k v).getitem k = some v) ∧
    (∀ (α : Type) (o : demo_bge.KX_GameObject α) (k k' : String) (v : α),
        k' ≠ k →
        (demo_bge.GameObjDict.setitem ⟨o⟩ k v).getitem k' =
          (⟨o⟩ : demo_bge.GameObjDict α).getitem k') ∧
    (∀ (α : Type) (o : demo_bge.KX_GameObject α) (k : String),
        (demo_bge.GameObjDict.delitem ⟨o⟩ k).getitem k = none) ∧
    (∀ (α : Type) (o : demo_bge.KX_GameObject α) (k k' : String),
        k' ≠ k →
        (demo_bge.GameObjDict.delitem ⟨o⟩ k).getitem k' =
          (⟨o⟩ : demo_bge.GameObjDict α).getitem k') ∧
    (∀ (α : Type) (d : demo_bge.GameObjDict α) (k : String),
        d.getitem k = d._obj.getItem k) ∧
    (∀ (α : Type) (d : demo_bge.GameObjDict α) (k : String) (v : α),
        (d.setitem k v)._obj = d._obj.setItem k v) ∧
    (∀ (α : Type) (d : demo_bge.GameObjDict α) (k : String),
        (d.delitem k)._obj = d._obj.delItem k) ∧
    (∀ (α : Type) (d : demo_bge.GameObjDict α),
        d.iter = d._obj.getPropertyNames ∧
        d.len = d._obj.getPropertyNames.length) := by
  refine ⟨?_, ?_, ?_, ?_, fun α d k => rfl, fun α d k v => rfl,
    fun α d k => rfl, fun α d => ⟨rfl, rfl⟩⟩
  · intro α o k v
    exact propsGet_propsSet_self o.props k v
  · intro α o k k' v h
    exact propsGet_propsSet_other o.props k k' v h
  · intro α o k
    exact propsGet_del_self o.props k
  · intro α o k k' h
    exact propsGet_del_other o.props k k' h

/-- Witness for C4 at concrete worlds: a null target gives relevance 0 and a
live target gives 0.7. -/
theorem c4_relevance_gating_witness :
    demo_bge.KillEnemyGoal.get_relevance ⟨none, false, true⟩ = 0 ∧
    demo_bge.KillEnemyGoal.get_relevance ⟨some ⟨false, 100⟩, true, true⟩ = 0.7 :=
  ⟨c4_relevance_gating.1 ⟨none, false, true⟩ rfl,
   c4_relevance_gating.2.1 ⟨some ⟨false, 100⟩, true, true⟩ (by decide)⟩

/-- Witness for C6 at concrete worlds: unloaded weapon fails, a dead target
succeeds, a healthy target keeps running. -/
theorem c6_attack_get_status_witness :
    demo_bge.Attack.get_status ⟨none, false, true⟩ [] = ActionStatus.failure ∧
    demo_bge.Attack.get_status ⟨some ⟨false, -5⟩, true, true⟩ [] =
      ActionStatus.success ∧
    demo_bge.Attack.get_status ⟨some ⟨false, 50⟩, true, true⟩ [] =
      ActionStatus.running :=
  ⟨(c6_attack_get_status_cases.1 ⟨none, false, true⟩ []).mpr (Or.inl rfl),
   ((c6_attack_get_status_cases.2 ⟨some ⟨false, -5⟩, true, true⟩ []
      ⟨false, -5⟩ rfl rfl).1).mpr (Or.inr (by decide)),
   ((c6_attack_get_status_cases.2 ⟨some ⟨false, 50⟩, true, true⟩ []
      ⟨false, 50⟩ rfl rfl).2).mpr (by decide)⟩

/-- Witness for C7 at concrete clock readings: 1 second in it is still
running, 5 seconds in it has succeeded. -/
theorem c7_cuttrees_two_second_duration_witness :
    (demo.CutTreesInstance.init.on_enter 0).get_status 1 =
      some ActionStatus.running ∧
    (demo_advanced.CutTreesInstance.init.on_enter 0).get_status 5 =
      some ActionStatus.success :=
  ⟨(c7_cuttrees_two_second_duration.1 demo.CutTreesInstance.init 0 1).1
     (by norm_num),
   (c7_cuttrees_two_second_duration.2 demo_advanced.CutTreesInstance.init 0 5).2.1
     (by norm_num)⟩

/-- Witness for C10 at a concrete table: writing "ammo" makes it readable
and leaves "health" untouched. -/
theorem c10_gameobjdict_faithful_witness :
    (demo_bge.GameObjDict.setitem ⟨⟨[("health", 3)]⟩⟩ "ammo" 7).getitem "ammo" =
      some 7 ∧
    (demo_bge.GameObjDict.setitem ⟨⟨[("health", 3)]⟩⟩ "ammo" 7).getitem "health" =
      some (3 : ℕ) :=
  ⟨c10_gameobjdict_faithful.1 ℕ ⟨[("health", 3)]⟩ "ammo" 7,
   c10_gameobjdict_faithful.2.1 ℕ ⟨[("health", 3)]⟩ "ammo" "health" 7 (by decide)⟩
